import Mathlib

set_option linter.unusedVariables false

/-!
Shallow embedding of the `sforwarder` socket relay (src/main.go).

The program is modelled as pure functions that compute, for each code path,
the sequence of observable actions (log events, dial attempts, connection
closes, goroutine spawns, channel waits) performed by the corresponding Go
function.  External effects (the network dial outcome, the result of each
`io.Copy`, the filesystem state probed by `os.Stat` / `os.Remove`, the bind
outcome of `net.Listen`, and the stream of accept results) are supplied as
oracle parameters, so the definitions follow the Go control flow exactly.

Goroutine nondeterminism is made explicit: `handleConnection` spawns two
copy goroutines and receives from the `done` channel exactly once; whether
the second copy loop terminates before `handleConnection` returns is a
scheduling choice, passed in as the `secondBeforeReturn` field of
`SessionOutcome`.  When it is `false`, the second direction's events fall
outside the traced window (nothing in the Go code orders them before any
later event of the main goroutine or the accept loop).
-/

namespace SForwarder

/-- The configuration record, from `type ForwardConfig struct` in src/main.go. -/
structure ForwardConfig where
  ListenType : String
  ListenAddr : String
  ConnectType : String
  ConnectAddr : String
  Fork : Bool
deriving DecidableEq, Repr

/-- Direction of one copy loop inside a session. -/
inductive Dir where
  | clientToTarget
  | targetToClient
deriving DecidableEq, Repr

/-- The other direction. -/
def other : Dir → Dir
  | .clientToTarget => .targetToClient
  | .targetToClient => .clientToTarget

/-- Result of one `io.Copy` call: the byte count it returned together with
its error value (`none` models a `nil` error, i.e. clean EOF). -/
structure CopyResult where
  bytes : Nat
  copyErr : Option String
deriving DecidableEq, Repr

/-- The two connection endpoints owned by a session:
`client` is the accepted inbound connection, `target` the dialed one. -/
inductive ConnEnd where
  | client
  | target
deriving DecidableEq, Repr

/-- The request `connectToTarget` hands to `net.DialTimeout`: the network
string, the (possibly normalized) address, and the timeout in seconds. -/
structure DialRequest where
  network : String
  address : String
  timeoutSeconds : Nat
deriving DecidableEq, Repr

/-- Observable actions of the relay, in program order per goroutine. -/
inductive Event where
  | logListening (listenType listenAddr : String)
  | logAcceptError (errMsg : String)
  | acceptReturn (remoteAddr : String)
  | spawnSession (remoteAddr : String)
  | logNewConnection (remoteAddr : String)
  | dialAttempt (req : DialRequest)
  | logDialFailed (connectType connectAddr errMsg : String)
  | logConnected (connectType connectAddr : String)
  | spawnCopy (d : Dir)
  | logCopyError (d : Dir) (errMsg : String)
  | logBytesForwarded (d : Dir) (bytes : Nat)
  | copyDone (d : Dir) (r : CopyResult)
  | waitDone
  | logConnectionClosed (remoteAddr : String)
  | closeConn (c : ConnEnd)
deriving DecidableEq, Repr

/-- Models `strings.HasPrefix` from the Go standard library: whether `p`
is a prefix of the byte/character sequence of `s`. -/
def hasPrefixGo (s p : String) : Bool :=
  p.data.isPrefixOf s.data

/-- The pure content of `connectToTarget` (src/main.go:158-180): the switch
on the connect type producing either the `net.DialTimeout` request that the
function performs, or the `unsupported connect type` error returned before
any I/O.  The `abstract` case prepends the `@` sentinel when missing. -/
def connectToTarget (connectType connectAddr : String) : Except String DialRequest :=
  if connectType = "tcp" then
    .ok ⟨"tcp", connectAddr, 10⟩
  else if connectType = "unix" then
    .ok ⟨"unix", connectAddr, 10⟩
  else if connectType = "abstract" then
    .ok ⟨"unix", if hasPrefixGo connectAddr "@" then connectAddr else "@" ++ connectAddr, 10⟩
  else
    .error ("unsupported connect type: " ++ connectType)

/-- Modelled from the spec: `net.DialTimeout` (standard library, not part of
this repository) enforces the timeout passed to it — a connection whose
establishment needs more than the bound yields a timeout error. -/
def dialCompletes (establishSeconds timeoutSeconds : Nat) : Except String Unit :=
  if timeoutSeconds < establishSeconds then .error "dial timeout" else .ok ()

/-- What the listener-creation switch of `startForwarder` (src/main.go:76-87)
asks of `net.Listen`, or the `unsupported listen type` error it returns.
`statOk` models `os.Stat` on the unix path succeeding (the file exists);
`removeSucceeds` models the outcome of `os.Remove`, whose error the Go code
discards — the plan does not depend on it.  `removeAttempted` records
whether `os.Remove` was called before binding. -/
structure ListenPlan where
  network : String
  address : String
  removeAttempted : Bool
deriving DecidableEq, Repr

/-- Listener creation switch from `startForwarder` (src/main.go:76-87). -/
def listenerPlan (listenType listenAddr : String) (statOk removeSucceeds : Bool) :
    Except String ListenPlan :=
  if listenType = "tcp" then
    .ok ⟨"tcp", listenAddr, false⟩
  else if listenType = "unix" then
    -- `if _, err := os.Stat(addr); err == nil { os.Remove(addr) }`:
    -- remove runs iff stat succeeded; its error (`removeSucceeds`) is discarded.
    .ok ⟨"unix", listenAddr, statOk⟩
  else
    .error ("unsupported listen type: " ++ listenType)

/-- Trace of one copy goroutine of `handleConnection`
(src/main.go:132-140 and 143-151): the goroutine runs `io.Copy`, logs the
error when there is one and otherwise the byte count, then its deferred
send on `done` fires (modelled as `copyDone`). -/
def copyLoopEvents (d : Dir) (r : CopyResult) : List Event :=
  match r.copyErr with
  | some e => [.logCopyError d e, .copyDone d r]
  | none => [.logBytesForwarded d r.bytes, .copyDone d r]

/-- Outcomes of one session, as chosen by the network and the scheduler:
which copy direction finishes first and with what result, the result of the
other direction, and whether the other direction's copy loop terminates
before `handleConnection` returns (the code never waits for it, so both
schedules are possible). -/
structure SessionOutcome where
  firstDir : Dir
  firstResult : CopyResult
  secondResult : CopyResult
  secondBeforeReturn : Bool
deriving DecidableEq, Repr

/-- Trace of `handleConnection` (src/main.go:111-156).  `netOutcome` is the
network's answer to the dial request (only consulted when the connect type
is supported).  On dial failure the function logs and returns, the deferred
`clientConn.Close()` firing.  On success it logs, spawns the two copy
goroutines, receives once from `done`, logs, and returns — its deferred
closes run in LIFO order: `targetConn` then `clientConn`.  The second copy
loop's events appear before the return only under the
`secondBeforeReturn` schedule. -/
def handleConnection (remoteAddr : String) (config : ForwardConfig)
    (netOutcome : Except String Unit) (s : SessionOutcome) : List Event :=
  Event.logNewConnection remoteAddr ::
  match connectToTarget config.ConnectType config.ConnectAddr with
  | .error e =>
    [.logDialFailed config.ConnectType config.ConnectAddr e, .closeConn .client]
  | .ok req =>
    Event.dialAttempt req ::
    match netOutcome with
    | .error e =>
      [.logDialFailed config.ConnectType config.ConnectAddr e, .closeConn .client]
    | .ok _ =>
      [Event.logConnected config.ConnectType config.ConnectAddr,
       Event.spawnCopy .clientToTarget, Event.spawnCopy .targetToClient]
      ++ copyLoopEvents s.firstDir s.firstResult
      ++ (if s.secondBeforeReturn then copyLoopEvents (other s.firstDir) s.secondResult else [])
      ++ [Event.waitDone, Event.logConnectionClosed remoteAddr,
          Event.closeConn .target, Event.closeConn .client]

deriving instance DecidableEq for Except

/-- One iteration's worth of input to the accept loop: either
`listener.Accept` returned an error, or it returned a connection whose
subsequent dial and session outcomes are the recorded ones. -/
inductive AcceptEvent where
  | acceptErr (errMsg : String)
  | accepted (remoteAddr : String) (netOutcome : Except String Unit) (s : SessionOutcome)
deriving DecidableEq, Repr

/-- The dispatch step of the accept loop (src/main.go:103-107): in fork
mode `handleConnection` runs on its own goroutine (only the spawn is in the
loop's trace); in serialized mode it runs inline. -/
def dispatch (config : ForwardConfig) (remoteAddr : String)
    (netOutcome : Except String Unit) (s : SessionOutcome) : List Event :=
  if config.Fork then [Event.spawnSession remoteAddr]
  else handleConnection remoteAddr config netOutcome s

/-- The accept loop of `startForwarder` (src/main.go:96-108) run over a
finite prefix of accept results: an accept error is logged and the loop
continues; an accepted connection is dispatched. -/
def acceptLoop (config : ForwardConfig) : List AcceptEvent → List Event
  | [] => []
  | .acceptErr m :: rest => Event.logAcceptError m :: acceptLoop config rest
  | .accepted addr netOutcome s :: rest =>
      Event.acceptReturn addr :: (dispatch config addr netOutcome s ++ acceptLoop config rest)

/-- How `startForwarder` ends: either it returns (with the `error` value it
returned, `none` modelling a `nil` error), or it enters the infinite accept
loop and never returns (`looping` carries the trace over the supplied
finite prefix of accept results). -/
inductive StartOutcome where
  | returned (err : Option String)
  | looping (trace : List Event)
deriving DecidableEq, Repr

/-- `startForwarder` (src/main.go:71-109).  `bindResult` is the outcome of
the `net.Listen` call (only consulted when the listen type is supported);
`events` is the finite prefix of accept results fed to the loop. -/
def startForwarder (config : ForwardConfig) (statOk removeSucceeds : Bool)
    (bindResult : Except String Unit) (events : List AcceptEvent) : StartOutcome :=
  match listenerPlan config.ListenType config.ListenAddr statOk removeSucceeds with
  | .error e => .returned (some e)
  | .ok _ =>
    match bindResult with
    | .error e => .returned (some ("failed to create listener: " ++ e))
    | .ok _ =>
      .looping (Event.logListening config.ListenType config.ListenAddr :: acceptLoop config events)

/-- Process-scope behavior of `main` (src/main.go:60-64): the goroutine
running `startForwarder` calls `log.Fatalf` on a non-nil returned error;
otherwise the process keeps running (waiting on the signal channel). -/
inductive ProcessBehavior where
  | fatalExit (msg : String)
  | runningForever
deriving DecidableEq, Repr

/-- The `if err := startForwarder(config); err != nil { log.Fatalf(...) }`
wrapper in `main`. -/
def mainAfterStart : StartOutcome → ProcessBehavior
  | .returned (some e) => .fatalExit ("Forwarder error: " ++ e)
  | .returned none => .runningForever
  | .looping _ => .runningForever

/-- `true` exactly when `startForwarder` returned a `nil` error. -/
def returnedNil : StartOutcome → Bool
  | .returned none => true
  | _ => false

/-- Event classifiers used by the statements below. -/
def isCopyDoneFor (d : Dir) : Event → Bool
  | .copyDone d' _ => d' == d
  | _ => false

def isDialAttempt : Event → Bool
  | .dialAttempt _ => true
  | _ => false

def isWaitDone : Event → Bool
  | .waitDone => true
  | _ => false

def isSpawnCopy (d : Dir) : Event → Bool
  | .spawnCopy d' => d' == d
  | _ => false

def mentionsByteCount : Event → Bool
  | .logBytesForwarded _ _ => true
  | _ => false

/-- Contribution of an event to the number of inbound connections currently
held by the relay: `listener.Accept` returning acquires one, the final
`clientConn.Close()` of its handler releases it. -/
def openDelta : Event → Int
  | .acceptReturn _ => 1
  | .closeConn .client => -1
  | _ => 0

/-- Running check that, starting from `n` open inbound connections, every
prefix of the trace keeps the count between 0 and 1. -/
def scanOK : Int → List Event → Bool
  | _, [] => true
  | n, e :: rest =>
      let m := n + openDelta e
      decide (0 ≤ m ∧ m ≤ 1) && scanOK m rest

/-- Net change in open inbound connections over a trace. -/
def netOpen : List Event → Int
  | [] => 0
  | e :: rest => openDelta e + netOpen rest

/-- A concrete serialized-mode configuration, used to instantiate theorems. -/
def cfgSerial : ForwardConfig := ⟨"tcp", ":9", "tcp", "t:1", false⟩

/-- A concrete session outcome in which the client-to-target copy finishes
first (13 bytes, clean EOF) and the target-to-client copy loop has not yet
terminated when the handler returns. -/
def sessNoDrain : SessionOutcome := ⟨.clientToTarget, ⟨13, none⟩, ⟨7, none⟩, false⟩

/-- A concrete fork-mode configuration, used to instantiate theorems. -/
def cfgFork : ForwardConfig := ⟨"tcp", ":8080", "tcp", "localhost:9090", true⟩

/- ### Helper lemmas -/

theorem hasPrefixGo_prepend (a : String) : hasPrefixGo ("@" ++ a) "@" = true := by
  have h : ("@" ++ a).data = '@' :: a.data := String.data_append "@" a
  simp [hasPrefixGo, h, List.isPrefixOf]

theorem beq_other (d : Dir) : (d == other d) = false := by
  cases d <;> rfl

theorem copyLoop_openDelta (d : Dir) (r : CopyResult) :
    ∀ e ∈ copyLoopEvents d r, openDelta e = 0 := by
  rcases r with ⟨b, err⟩
  cases err <;> simp [copyLoopEvents, openDelta]

theorem copyLoop_countP_done_self (d : Dir) (r : CopyResult) :
    (copyLoopEvents d r).countP (isCopyDoneFor d) = 1 := by
  rcases r with ⟨b, err⟩
  cases err <;> simp [copyLoopEvents, isCopyDoneFor]

theorem copyLoop_countP_done_other (d : Dir) (r : CopyResult) :
    (copyLoopEvents d r).countP (isCopyDoneFor (other d)) = 0 := by
  rcases r with ⟨b, err⟩
  cases err <;> simp [copyLoopEvents, isCopyDoneFor, beq_other]

theorem copyLoop_countP_waitDone (d : Dir) (r : CopyResult) :
    (copyLoopEvents d r).countP isWaitDone = 0 := by
  rcases r with ⟨b, err⟩
  cases err <;> simp [copyLoopEvents, isWaitDone]

theorem handleConnection_ok (addr : String) (cfg : ForwardConfig) (s : SessionOutcome)
    (req : DialRequest) (hreq : connectToTarget cfg.ConnectType cfg.ConnectAddr = .ok req) :
    handleConnection addr cfg (.ok ()) s =
      [Event.logNewConnection addr, Event.dialAttempt req,
       Event.logConnected cfg.ConnectType cfg.ConnectAddr,
       Event.spawnCopy .clientToTarget, Event.spawnCopy .targetToClient]
      ++ copyLoopEvents s.firstDir s.firstResult
      ++ (if s.secondBeforeReturn then copyLoopEvents (other s.firstDir) s.secondResult else [])
      ++ [Event.waitDone, Event.logConnectionClosed addr,
          Event.closeConn .target, Event.closeConn .client] := by
  simp [handleConnection, hreq]

theorem start_looping (cfg : ForwardConfig) (statOk rs : Bool) (events : List AcceptEvent)
    (hl : cfg.ListenType = "tcp" ∨ cfg.ListenType = "unix") :
    startForwarder cfg statOk rs (.ok ()) events =
      .looping (Event.logListening cfg.ListenType cfg.ListenAddr :: acceptLoop cfg events) := by
  rcases cfg with ⟨lt, la, ct, ca, fk⟩
  simp only at hl
  rcases hl with h | h <;> subst h <;> rfl

theorem scanOK_cons (n : Int) (e : Event) (L : List Event) :
    scanOK n (e :: L) =
      (decide (0 ≤ n + openDelta e ∧ n + openDelta e ≤ 1) &&
        scanOK (n + openDelta e) L) := rfl

theorem scanOK_append (n : Int) (xs ys : List Event) :
    scanOK n (xs ++ ys) = (scanOK n xs && scanOK (n + netOpen xs) ys) := by
  induction xs generalizing n with
  | nil => simp [scanOK, netOpen]
  | cons e tl ih => simp [scanOK, netOpen, ih, Bool.and_assoc, add_assoc]

theorem zero_block_scan (xs : List Event) (h : ∀ e ∈ xs, openDelta e = 0) :
    scanOK 1 (xs ++ [Event.closeConn .client]) = true ∧
    netOpen (xs ++ [Event.closeConn .client]) = -1 := by
  induction xs with
  | nil => constructor <;> rfl
  | cons e tl ih =>
      have he : openDelta e = 0 := h e (by simp)
      have ih' := ih (fun x hx => h x (by simp [hx]))
      refine ⟨?_, by simp [netOpen, he, ih'.2]⟩
      simpa [scanOK, he] using ih'.1

theorem handleConnection_block (addr : String) (cfg : ForwardConfig)
    (netOutcome : Except String Unit) (s : SessionOutcome) :
    ∃ xs, handleConnection addr cfg netOutcome s = xs ++ [Event.closeConn .client] ∧
      ∀ e ∈ xs, openDelta e = 0 := by
  rcases hct : connectToTarget cfg.ConnectType cfg.ConnectAddr with e | req
  · exact ⟨[Event.logNewConnection addr,
      Event.logDialFailed cfg.ConnectType cfg.ConnectAddr e],
      by simp [handleConnection, hct], by simp [openDelta]⟩
  · rcases netOutcome with e | u
    · exact ⟨[Event.logNewConnection addr, Event.dialAttempt req,
        Event.logDialFailed cfg.ConnectType cfg.ConnectAddr e],
        by simp [handleConnection, hct], by simp [openDelta]⟩
    · refine ⟨[Event.logNewConnection addr, Event.dialAttempt req,
        Event.logConnected cfg.ConnectType cfg.ConnectAddr,
        Event.spawnCopy .clientToTarget, Event.spawnCopy .targetToClient]
        ++ copyLoopEvents s.firstDir s.firstResult
        ++ (if s.secondBeforeReturn then copyLoopEvents (other s.firstDir) s.secondResult
            else [])
        ++ [Event.waitDone, Event.logConnectionClosed addr, Event.closeConn .target],
        by simp [handleConnection, hct], ?_⟩
      have hc1 := copyLoop_openDelta s.firstDir s.firstResult
      have hc2 := copyLoop_openDelta (other s.firstDir) s.secondResult
      cases hb : s.secondBeforeReturn
      · simp [hb, List.forall_mem_append, List.forall_mem_cons, openDelta]
        intro x hx
        rcases hx with hx | hx | hx | hx
        · exact hc1 x hx
        · subst hx; rfl
        · subst hx; rfl
        · subst hx; rfl
      · simp [hb, List.forall_mem_append, List.forall_mem_cons, openDelta]
        intro x hx
        rcases hx with hx | hx | hx | hx | hx
        · exact hc1 x hx
        · exact hc2 x hx
        · subst hx; rfl
        · subst hx; rfl
        · subst hx; rfl

theorem handleConnection_scan (addr : String) (cfg : ForwardConfig)
    (netOutcome : Except String Unit) (s : SessionOutcome) :
    scanOK 1 (handleConnection addr cfg netOutcome s) = true ∧
    netOpen (handleConnection addr cfg netOutcome s) = -1 := by
  obtain ⟨xs, hx, hz⟩ := handleConnection_block addr cfg netOutcome s
  rw [hx]
  exact zero_block_scan xs hz

/- ### Claim theorems -/

/-- C4: for every caller-supplied name dialed on the abstract transport
kind, the dialer prepends the namespace sentinel `@` if and only if the
name does not already begin with it; the normalization is idempotent
(dialing the normalized name again yields the same target); and dialing
`"webview"` and `"@webview"` produce the same effective connection
target. -/
theorem abstract_name_normalization (a : String) :
    connectToTarget "abstract" a =
      .ok ⟨"unix", if hasPrefixGo a "@" then a else "@" ++ a, 10⟩ ∧
    connectToTarget "abstract" (if hasPrefixGo a "@" then a else "@" ++ a) =
      .ok ⟨"unix", if hasPrefixGo a "@" then a else "@" ++ a, 10⟩ ∧
    connectToTarget "abstract" "webview" = connectToTarget "abstract" "@webview" := by
  refine ⟨rfl, ?_, by decide⟩
  by_cases h : hasPrefixGo a "@" = true
  · simp [connectToTarget, h]
  · simp [connectToTarget, h, hasPrefixGo_prepend]

/-- C5: dial supports exactly the transport kinds tcp, unix and abstract
and fails with an `unsupported connect type` error on any other kind
before attempting any I/O (no dial attempt appears in the handler trace);
listen supports exactly tcp and unix and fails with an
`unsupported listen type` error on any other kind, including abstract. -/
theorem unsupported_transport_fails_fast (t a lt la ra : String) (statOk rs fk : Bool)
    (netOutcome : Except String Unit) (s : SessionOutcome)
    (ht1 : t ≠ "tcp") (ht2 : t ≠ "unix") (ht3 : t ≠ "abstract") :
    connectToTarget t a = .error ("unsupported connect type: " ++ t) ∧
    (∃ r1, connectToTarget "tcp" a = .ok r1) ∧
    (∃ r2, connectToTarget "unix" a = .ok r2) ∧
    (∃ r3, connectToTarget "abstract" a = .ok r3) ∧
    listenerPlan t a statOk rs = .error ("unsupported listen type: " ++ t) ∧
    listenerPlan "abstract" a statOk rs = .error ("unsupported listen type: " ++ "abstract") ∧
    (∃ p1, listenerPlan "tcp" a statOk rs = .ok p1) ∧
    (∃ p2, listenerPlan "unix" a statOk rs = .ok p2) ∧
    (handleConnection ra ⟨lt, la, t, a, fk⟩ netOutcome s).countP isDialAttempt = 0 := by
  have hc : connectToTarget t a = .error ("unsupported connect type: " ++ t) := by
    simp [connectToTarget, ht1, ht2, ht3]
  refine ⟨hc, ⟨_, rfl⟩, ⟨_, rfl⟩, ⟨_, rfl⟩, ?_, by rfl, ⟨_, rfl⟩, ⟨_, rfl⟩, ?_⟩
  · simp [listenerPlan, ht1, ht2]
  · simp [handleConnection, hc, isDialAttempt]

/-- C5 witness: the unsupported kind `bogus` is rejected by both the
dialer and the listener factory. -/
theorem unsupported_transport_fails_fast_witness :
    connectToTarget "bogus" "x" = .error ("unsupported connect type: " ++ "bogus") ∧
    (∃ r1, connectToTarget "tcp" "x" = .ok r1) ∧
    (∃ r2, connectToTarget "unix" "x" = .ok r2) ∧
    (∃ r3, connectToTarget "abstract" "x" = .ok r3) ∧
    listenerPlan "bogus" "x" true true = .error ("unsupported listen type: " ++ "bogus") ∧
    listenerPlan "abstract" "x" true true = .error ("unsupported listen type: " ++ "abstract") ∧
    (∃ p1, listenerPlan "tcp" "x" true true = .ok p1) ∧
    (∃ p2, listenerPlan "unix" "x" true true = .ok p2) ∧
    (handleConnection "r" ⟨"tcp", ":1", "bogus", "x", true⟩ (.ok ()) sessNoDrain).countP
      isDialAttempt = 0 :=
  unsupported_transport_fails_fast "bogus" "x" "tcp" ":1" "r" true true true (.ok ())
    sessNoDrain (by decide) (by decide) (by decide)

/-- C8: for each supported connect transport kind the dialer issues its
request with a fixed 10-second bound on connection establishment, and (dial
bound behavior modelled from the spec) an establishment that exceeds the
bound yields a timeout error. -/
theorem dial_timeout_bound (t a : String)
    (ht : t = "tcp" ∨ t = "unix" ∨ t = "abstract") :
    ∃ req, connectToTarget t a = .ok req ∧ req.timeoutSeconds = 10 ∧
      ∀ n, 10 < n → dialCompletes n req.timeoutSeconds = .error "dial timeout" := by
  rcases ht with h | h | h <;> subst h
  · exact ⟨_, rfl, rfl, fun n hn => by simp [dialCompletes, hn]⟩
  · exact ⟨_, rfl, rfl, fun n hn => by simp [dialCompletes, hn]⟩
  · exact ⟨_, rfl, rfl, fun n hn => by simp [dialCompletes, hn]⟩

/-- C8 witness: the tcp dial carries the 10-second bound and an
11-second establishment times out. -/
theorem dial_timeout_bound_witness :
    ∃ req, connectToTarget "tcp" "localhost:9090" = .ok req ∧ req.timeoutSeconds = 10 ∧
      ∀ n, 10 < n → dialCompletes n req.timeoutSeconds = .error "dial timeout" :=
  dial_timeout_bound "tcp" "localhost:9090" (Or.inl rfl)

/-- C9: when creating a unix listener, the stale entry at the address path
is removed exactly when the path exists; the outcome of the removal is
discarded, so a failed removal is not fatal — the bind is attempted either
way and a real conflict surfaces as the bind's own listener-creation
error. -/
theorem unix_prebind_cleanup (laddr ct ca : String) (fk statOk r1 r2 : Bool)
    (bindErr : String) (events : List AcceptEvent) :
    listenerPlan "unix" laddr statOk r1 = .ok ⟨"unix", laddr, statOk⟩ ∧
    listenerPlan "unix" laddr statOk r1 = listenerPlan "unix" laddr statOk r2 ∧
    startForwarder ⟨"unix", laddr, ct, ca, fk⟩ statOk r1 (.error bindErr) events =
      .returned (some ("failed to create listener: " ++ bindErr)) ∧
    (∃ tr, startForwarder ⟨"unix", laddr, ct, ca, fk⟩ statOk r1 (.ok ()) events =
      .looping tr) :=
  ⟨rfl, rfl, rfl, ⟨_, rfl⟩⟩

/-- C10: every return of `startForwarder` carries a non-nil error — there
is no input (configuration, filesystem state, bind outcome, accept events)
on which it returns a nil error. -/
theorem start_never_returns_nil (cfg : ForwardConfig) (statOk rs : Bool)
    (bindResult : Except String Unit) (events : List AcceptEvent) :
    returnedNil (startForwarder cfg statOk rs bindResult events) = false := by
  unfold startForwarder
  split
  · rfl
  · split
    · rfl
    · rfl

/-- C7: an accept-time error is logged and the loop continues accepting
(it never ends the loop or the process), while a listener-creation failure
is propagated to the caller as an error and is process-fatal. -/
theorem accept_error_never_fatal (cfg : ForwardConfig) (statOk rs : Bool)
    (events rest : List AcceptEvent) (m e : String)
    (hl : cfg.ListenType = "tcp" ∨ cfg.ListenType = "unix") :
    acceptLoop cfg (.acceptErr m :: rest) = Event.logAcceptError m :: acceptLoop cfg rest ∧
    (∃ tr, startForwarder cfg statOk rs (.ok ()) events = .looping tr) ∧
    mainAfterStart (startForwarder cfg statOk rs (.ok ()) events) = .runningForever ∧
    startForwarder cfg statOk rs (.error e) events =
      .returned (some ("failed to create listener: " ++ e)) ∧
    mainAfterStart (startForwarder cfg statOk rs (.error e) events) =
      .fatalExit ("Forwarder error: " ++ ("failed to create listener: " ++ e)) := by
  have hok := start_looping cfg statOk rs events hl
  have herr : startForwarder cfg statOk rs (.error e) events =
      .returned (some ("failed to create listener: " ++ e)) := by
    rcases cfg with ⟨lt, la, ct, ca, fk⟩
    simp only at hl
    rcases hl with h | h <;> subst h <;> rfl
  exact ⟨rfl, ⟨_, hok⟩, by rw [hok]; rfl, herr, by rw [herr]; rfl⟩

/-- C7 witness: instantiated at a tcp listener, a concrete accept error
and a concrete bind failure. -/
theorem accept_error_never_fatal_witness :
    acceptLoop cfgFork (.acceptErr "too many open files" :: []) =
      Event.logAcceptError "too many open files" :: acceptLoop cfgFork [] ∧
    (∃ tr, startForwarder cfgFork true true (.ok ())
      [.acceptErr "too many open files"] = .looping tr) ∧
    mainAfterStart (startForwarder cfgFork true true (.ok ())
      [.acceptErr "too many open files"]) = .runningForever ∧
    startForwarder cfgFork true true (.error "address in use")
      [.acceptErr "too many open files"] =
      .returned (some ("failed to create listener: " ++ "address in use")) ∧
    mainAfterStart (startForwarder cfgFork true true (.error "address in use")
      [.acceptErr "too many open files"]) =
      .fatalExit ("Forwarder error: " ++ ("failed to create listener: " ++ "address in use")) :=
  accept_error_never_fatal cfgFork true true [.acceptErr "too many open files"] []
    "too many open files" "address in use" (Or.inl rfl)

/-- C2 counterexample: a copy direction that terminates with an I/O error
after transferring 5 bytes logs only the error — no event in its trace
carries a byte count, so the direction's terminal byte count is not
reported on the error path, contrary to the claim that count and status
are both reported whether the direction ended cleanly or with an error. -/
theorem copy_error_omits_byte_count :
    (copyLoopEvents .clientToTarget ⟨5, some "connection reset by peer"⟩).countP
      mentionsByteCount = 0 ∧
    copyLoopEvents .clientToTarget ⟨5, some "connection reset by peer"⟩ =
      [.logCopyError .clientToTarget "connection reset by peer",
       .copyDone .clientToTarget ⟨5, some "connection reset by peer"⟩] := by
  decide

/-- C2 (amended): each copy direction reports its terminal status for
logging exactly once — the byte count on clean EOF, the error (without the
byte count) on an I/O error; the copy is not retried (its trace is that
single report followed by its done signal), and a copy error is never
process-fatal: with the listener up, the process keeps running whatever
the sessions' copy outcomes are. -/
theorem copy_termination_reporting (d : Dir) (r : CopyResult) (e : String)
    (cfg : ForwardConfig) (statOk rs : Bool) (events : List AcceptEvent)
    (hl : cfg.ListenType = "tcp" ∨ cfg.ListenType = "unix") :
    (r.copyErr = none → copyLoopEvents d r = [.logBytesForwarded d r.bytes, .copyDone d r]) ∧
    (r.copyErr = some e → copyLoopEvents d r = [.logCopyError d e, .copyDone d r]) ∧
    (copyLoopEvents d r).countP (isCopyDoneFor d) = 1 ∧
    mainAfterStart (startForwarder cfg statOk rs (.ok ()) events) = .runningForever := by
  refine ⟨fun h => by simp [copyLoopEvents, h], fun h => by simp [copyLoopEvents, h],
    copyLoop_countP_done_self d r, ?_⟩
  rw [start_looping cfg statOk rs events hl]
  rfl

/-- C2 amended-claim witness: a clean 13-byte direction, with a session
carrying a copy error among the accepted events. -/
theorem copy_termination_reporting_witness :
    ((⟨13, none⟩ : CopyResult).copyErr = none →
      copyLoopEvents .clientToTarget ⟨13, none⟩ =
        [.logBytesForwarded .clientToTarget 13, .copyDone .clientToTarget ⟨13, none⟩]) ∧
    ((⟨13, none⟩ : CopyResult).copyErr = some "broken pipe" →
      copyLoopEvents .clientToTarget ⟨13, none⟩ =
        [.logCopyError .clientToTarget "broken pipe", .copyDone .clientToTarget ⟨13, none⟩]) ∧
    (copyLoopEvents .clientToTarget ⟨13, none⟩).countP (isCopyDoneFor .clientToTarget) = 1 ∧
    mainAfterStart (startForwarder cfgFork true true (.ok ())
      [.accepted "c" (.ok ()) ⟨.targetToClient, ⟨0, some "broken pipe"⟩, ⟨4, none⟩, true⟩]) =
      .runningForever :=
  copy_termination_reporting .clientToTarget ⟨13, none⟩ "broken pipe" cfgFork true true
    [.accepted "c" (.ok ()) ⟨.targetToClient, ⟨0, some "broken pipe"⟩, ⟨4, none⟩, true⟩]
    (Or.inl rfl)

/-- C6: when the dial for an accepted connection fails, the handler's
whole trace is — log the new connection, the single dial attempt, log the
failure, close the accepted connection; so the failure is logged, exactly
one dial attempt is made (no retry), no copy loop is spawned (no session),
and for any accept event the loop's trace continues with the trace of the
remaining events (the accept loop keeps accepting). -/
theorem dial_failure_closes_and_continues (addr e : String) (cfg : ForwardConfig)
    (s : SessionOutcome) (req : DialRequest) (rest : List AcceptEvent) (ev : AcceptEvent)
    (hreq : connectToTarget cfg.ConnectType cfg.ConnectAddr = .ok req) :
    handleConnection addr cfg (.error e) s =
      [Event.logNewConnection addr, Event.dialAttempt req,
       Event.logDialFailed cfg.ConnectType cfg.ConnectAddr e, Event.closeConn .client] ∧
    (handleConnection addr cfg (.error e) s).countP isDialAttempt = 1 ∧
    (∀ d : Dir, (handleConnection addr cfg (.error e) s).countP (isSpawnCopy d) = 0) ∧
    (∃ pre, acceptLoop cfg (ev :: rest) = pre ++ acceptLoop cfg rest) := by
  have htr : handleConnection addr cfg (.error e) s =
      [Event.logNewConnection addr, Event.dialAttempt req,
       Event.logDialFailed cfg.ConnectType cfg.ConnectAddr e, Event.closeConn .client] := by
    simp [handleConnection, hreq]
  refine ⟨htr, by simp [htr, isDialAttempt], fun d => by simp [htr, isSpawnCopy], ?_⟩
  cases ev with
  | acceptErr m => exact ⟨[Event.logAcceptError m], rfl⟩
  | accepted a2 n2 s2 =>
      exact ⟨Event.acceptReturn a2 :: dispatch cfg a2 n2 s2, by simp [acceptLoop]⟩

/-- C6 witness: a refused dial on a concrete serialized configuration. -/
theorem dial_failure_closes_and_continues_witness :
    handleConnection "c" cfgSerial (.error "connection refused") sessNoDrain =
      [Event.logNewConnection "c", Event.dialAttempt ⟨"tcp", "t:1", 10⟩,
       Event.logDialFailed "tcp" "t:1" "connection refused", Event.closeConn .client] ∧
    (handleConnection "c" cfgSerial (.error "connection refused") sessNoDrain).countP
      isDialAttempt = 1 ∧
    (∀ d : Dir, (handleConnection "c" cfgSerial (.error "connection refused")
      sessNoDrain).countP (isSpawnCopy d) = 0) ∧
    (∃ pre, acceptLoop cfgSerial (.acceptErr "x" :: []) = pre ++ acceptLoop cfgSerial []) :=
  dial_failure_closes_and_continues "c" "connection refused" cfgSerial sessNoDrain
    ⟨"tcp", "t:1", 10⟩ [] (.acceptErr "x") rfl

/-- C1: once the dial has succeeded, the handler's trace ends — after the
single receive from the done channel — with closing the outbound and then
the inbound connection, whichever direction finished first; it performs
exactly one done-receive (it does not wait for the second direction), and
under the schedule where the second direction has not yet terminated, no
termination event of that direction occurs anywhere in the handler's
trace even though both connections get closed. -/
theorem relay_finishes_on_first_copy (addr : String) (cfg : ForwardConfig)
    (s : SessionOutcome) (req : DialRequest)
    (hreq : connectToTarget cfg.ConnectType cfg.ConnectAddr = .ok req) :
    (∃ pre, handleConnection addr cfg (.ok ()) s =
      pre ++ [Event.waitDone, Event.logConnectionClosed addr,
              Event.closeConn .target, Event.closeConn .client]) ∧
    (handleConnection addr cfg (.ok ()) s).countP isWaitDone = 1 ∧
    (s.secondBeforeReturn = false →
      (handleConnection addr cfg (.ok ()) s).countP (isCopyDoneFor (other s.firstDir)) = 0) := by
  have htr := handleConnection_ok addr cfg s req hreq
  refine ⟨⟨[Event.logNewConnection addr, Event.dialAttempt req,
      Event.logConnected cfg.ConnectType cfg.ConnectAddr,
      Event.spawnCopy .clientToTarget, Event.spawnCopy .targetToClient]
      ++ copyLoopEvents s.firstDir s.firstResult
      ++ (if s.secondBeforeReturn then copyLoopEvents (other s.firstDir) s.secondResult
          else []), by simp [htr]⟩, ?_, ?_⟩
  · cases hb : s.secondBeforeReturn <;>
      simp [htr, hb, isWaitDone, copyLoop_countP_waitDone]
  · intro hb
    simp [htr, hb, isCopyDoneFor, beq_other, copyLoop_countP_done_other]

/-- C3 counterexample: in serialized mode, with a first session whose
client-to-target copy finishes first and whose target-to-client copy loop
has not yet terminated when the handler returns, the accept of the second
connection occurs on a trace in which both connections of the first
session have been closed but only one of its two copy directions has
terminated — the loop does not wait for both directions to terminate, so
the claim's "both directions terminated" precondition for the next accept
is violated. -/
theorem serialized_accept_before_second_direction_ends :
    Event.acceptReturn "b" ∈
      acceptLoop cfgSerial [.accepted "a" (.ok ()) sessNoDrain,
        .accepted "b" (.ok ()) sessNoDrain] ∧
    Event.closeConn .client ∈
      ((acceptLoop cfgSerial [.accepted "a" (.ok ()) sessNoDrain,
        .accepted "b" (.ok ()) sessNoDrain]).takeWhile
        (fun e => e != Event.acceptReturn "b")) ∧
    Event.closeConn .target ∈
      ((acceptLoop cfgSerial [.accepted "a" (.ok ()) sessNoDrain,
        .accepted "b" (.ok ()) sessNoDrain]).takeWhile
        (fun e => e != Event.acceptReturn "b")) ∧
    ((acceptLoop cfgSerial [.accepted "a" (.ok ()) sessNoDrain,
        .accepted "b" (.ok ()) sessNoDrain]).takeWhile
        (fun e => e != Event.acceptReturn "b")).countP (isCopyDoneFor .clientToTarget) = 1 ∧
    ((acceptLoop cfgSerial [.accepted "a" (.ok ()) sessNoDrain,
        .accepted "b" (.ok ()) sessNoDrain]).takeWhile
        (fun e => e != Event.acceptReturn "b")).countP (isCopyDoneFor .targetToClient) = 0 := by
  decide

/-- C3 (amended): in serialized mode at most one inbound connection — and
hence at most one Session — is held at any instant: every prefix of the
accept-loop trace has between zero and one accepted-but-not-yet-closed
inbound connections, because the loop runs each handler inline and the
handler closes both connections before returning; what is not awaited is
the termination of the session's second copy direction, which may still be
running when the next connection is accepted. -/
theorem serialized_at_most_one_connection (cfg : ForwardConfig) (events : List AcceptEvent)
    (hfork : cfg.Fork = false) :
    scanOK 0 (acceptLoop cfg events) = true := by
  induction events with
  | nil => rfl
  | cons ev rest ih =>
    cases ev with
    | acceptErr m =>
        show scanOK 0 (Event.logAcceptError m :: acceptLoop cfg rest) = true
        rw [scanOK_cons]
        norm_num [openDelta, ih]
    | accepted a n s =>
        have hb := handleConnection_scan a cfg n s
        have hd : dispatch cfg a n s = handleConnection a cfg n s := by
          simp [dispatch, hfork]
        have h2 : scanOK 1 (handleConnection a cfg n s ++ acceptLoop cfg rest) = true := by
          rw [scanOK_append, hb.1, hb.2]
          norm_num [ih]
        show scanOK 0 (Event.acceptReturn a ::
          (dispatch cfg a n s ++ acceptLoop cfg rest)) = true
        rw [hd, scanOK_cons]
        norm_num [openDelta, h2]

/-- C3 amended-claim witness: the invariant evaluated on a concrete
serialized run with an accept error and one full session. -/
theorem serialized_at_most_one_connection_witness :
    scanOK 0 (acceptLoop cfgSerial
      [.acceptErr "x", .accepted "a" (.ok ()) sessNoDrain]) = true :=
  serialized_at_most_one_connection cfgSerial
    [.acceptErr "x", .accepted "a" (.ok ()) sessNoDrain] rfl

/-- C1 witness: a session on a concrete configuration where the
client-to-target direction finishes first and the reverse direction is
still unfinished at close time. -/
theorem relay_finishes_on_first_copy_witness :
    (∃ pre, handleConnection "c" cfgSerial (.ok ()) sessNoDrain =
      pre ++ [Event.waitDone, Event.logConnectionClosed "c",
              Event.closeConn .target, Event.closeConn .client]) ∧
    (handleConnection "c" cfgSerial (.ok ()) sessNoDrain).countP isWaitDone = 1 ∧
    (sessNoDrain.secondBeforeReturn = false →
      (handleConnection "c" cfgSerial (.ok ()) sessNoDrain).countP
        (isCopyDoneFor (other sessNoDrain.firstDir)) = 0) :=
  relay_finishes_on_first_copy "c" cfgSerial sessNoDrain ⟨"tcp", "t:1", 10⟩ rfl

end SForwarder
